import Mathlib

/-!
Shallow embedding of `src/app.py` (Lebanon Trade Sector Analysis dashboard).

The script builds two hardcoded pandas DataFrames (`regional_size_data`,
`regional_activity_data`) and a dict of headline metrics in
`load_trade_data`, then on every rerun applies a region filter
(`selected_region`, with sentinel value "All Regions") and an
institution-size multiselect filter (`institution_sizes`) to derive
`filtered_size_data`, `filtered_activity_data`,
`filtered_total_institutions` and `filtered_total_activities`
(lines 143-179), and renders five constant headline metrics
(lines 182-192).

DataFrames are embedded as lists of records; each row keeps the column
values of the source literal.  The whole script rerun is embedded as
the pure function `renderDashboard` of the two widget values.
-/

/-- A row of the `regional_size_data` DataFrame (columns
`Region`, `Institution Size`, `Count`). -/
structure SizeRow where
  region : String
  institutionSize : String
  count : Nat
deriving DecidableEq, Repr

/-- A row of the `regional_activity_data` DataFrame (columns
`Region`, `Activity Type`, `Towns with Activity`). -/
structure ActivityRow where
  region : String
  activityType : String
  townsWithActivity : Nat
deriving DecidableEq, Repr

/-- The `regional_size_data` DataFrame literal of `load_trade_data`
(src/app.py lines 58-68): 5 regions x 3 institution sizes. -/
def regional_size_data : List SizeRow :=
  [ ⟨"Bekaa", "Small Institutions", 8500⟩,
    ⟨"Bekaa", "Medium Institutions", 580⟩,
    ⟨"Bekaa", "Large Institutions", 150⟩,
    ⟨"Mount Lebanon", "Small Institutions", 12200⟩,
    ⟨"Mount Lebanon", "Medium Institutions", 820⟩,
    ⟨"Mount Lebanon", "Large Institutions", 220⟩,
    ⟨"North Lebanon", "Small Institutions", 7800⟩,
    ⟨"North Lebanon", "Medium Institutions", 520⟩,
    ⟨"North Lebanon", "Large Institutions", 140⟩,
    ⟨"South Lebanon", "Small Institutions", 6200⟩,
    ⟨"South Lebanon", "Medium Institutions", 410⟩,
    ⟨"South Lebanon", "Large Institutions", 110⟩,
    ⟨"Nabatieh", "Small Institutions", 4240⟩,
    ⟨"Nabatieh", "Medium Institutions", 282⟩,
    ⟨"Nabatieh", "Large Institutions", 64⟩ ]

/-- The `regional_activity_data` DataFrame literal of `load_trade_data`
(src/app.py lines 70-87): Region cycles through the 5 regions, Activity
Type comes in 5 blocks of 5. -/
def regional_activity_data : List ActivityRow :=
  [ ⟨"Bekaa", "Self Employment", 165⟩,
    ⟨"Mount Lebanon", "Self Employment", 220⟩,
    ⟨"North Lebanon", "Self Employment", 142⟩,
    ⟨"South Lebanon", "Self Employment", 118⟩,
    ⟨"Nabatieh", "Self Employment", 77⟩,
    ⟨"Bekaa", "Commerce", 120⟩,
    ⟨"Mount Lebanon", "Commerce", 158⟩,
    ⟨"North Lebanon", "Commerce", 98⟩,
    ⟨"South Lebanon", "Commerce", 82⟩,
    ⟨"Nabatieh", "Commerce", 35⟩,
    ⟨"Bekaa", "Public Sector", 48⟩,
    ⟨"Mount Lebanon", "Public Sector", 62⟩,
    ⟨"North Lebanon", "Public Sector", 38⟩,
    ⟨"South Lebanon", "Public Sector", 35⟩,
    ⟨"Nabatieh", "Public Sector", 24⟩,
    ⟨"Bekaa", "Service Institutions", 32⟩,
    ⟨"Mount Lebanon", "Service Institutions", 41⟩,
    ⟨"North Lebanon", "Service Institutions", 26⟩,
    ⟨"South Lebanon", "Service Institutions", 18⟩,
    ⟨"Nabatieh", "Service Institutions", 9⟩,
    ⟨"Bekaa", "Banking", 22⟩,
    ⟨"Mount Lebanon", "Banking", 28⟩,
    ⟨"North Lebanon", "Banking", 18⟩,
    ⟨"South Lebanon", "Banking", 15⟩,
    ⟨"Nabatieh", "Banking", 8⟩ ]

/-- `total_small = 8500 + 12200 + 7800 + 6200 + 4240` (src/app.py line 90). -/
def total_small : Nat := 8500 + 12200 + 7800 + 6200 + 4240

/-- `total_medium = 580 + 820 + 520 + 410 + 282` (src/app.py line 91). -/
def total_medium : Nat := 580 + 820 + 520 + 410 + 282

/-- `total_large = 150 + 220 + 140 + 110 + 64` (src/app.py line 92). -/
def total_large : Nat := 150 + 220 + 140 + 110 + 64

/-- `total_institutions = total_small + total_medium + total_large`
(src/app.py line 93). -/
def total_institutions : Nat := total_small + total_medium + total_large

/-- Sum of the `Count` column of a list of size rows
(pandas `['Count'].sum()`). -/
def countSum (rows : List SizeRow) : Nat :=
  (rows.map (fun r => r.count)).sum

/-- Sum of the `Towns with Activity` column of a list of activity rows
(pandas `['Towns with Activity'].sum()`). -/
def townsSum (rows : List ActivityRow) : Nat :=
  (rows.map (fun r => r.townsWithActivity)).sum

/-- The region filter applied to the size table (src/app.py lines
146-153): when `selected_region` is not the sentinel "All Regions",
keep the rows whose `Region` equals the selection, else keep the whole
table (a `.copy()` in pandas). -/
def regionFilterSize (table : List SizeRow) (selected_region : String) :
    List SizeRow :=
  if selected_region ≠ "All Regions" then
    table.filter (fun r => r.region == selected_region)
  else
    table

/-- The region filter applied to the activity table (src/app.py lines
146-153), same branch structure as for the size table. -/
def regionFilterActivity (table : List ActivityRow)
    (selected_region : String) : List ActivityRow :=
  if selected_region ≠ "All Regions" then
    table.filter (fun r => r.region == selected_region)
  else
    table

/-- The institution-size multiselect filter (src/app.py lines 157-168):
when `institution_sizes` is non-empty, keep the rows whose
`Institution Size` is in the selected list (`.isin`); when it is empty,
the code returns `filtered_size_data.iloc[0:0]`, the empty frame. -/
def sizeFilter (table : List SizeRow) (institution_sizes : List String) :
    List SizeRow :=
  if institution_sizes.isEmpty then
    []
  else
    table.filter (fun r => institution_sizes.contains r.institutionSize)

/-- `filtered_total_institutions` (src/app.py lines 171-174): sum of
`Count` when the filtered frame is non-empty, else 0. -/
def totalInstitutionsOf (rows : List SizeRow) : Nat :=
  if rows.length > 0 then countSum rows else 0

/-- `filtered_total_activities` (src/app.py lines 176-179): sum of
`Towns with Activity` when the filtered frame is non-empty, else 0. -/
def totalActivitiesOf (rows : List ActivityRow) : Nat :=
  if rows.length > 0 then townsSum rows else 0

/-- `groupby('Institution Size')['Count'].sum()` at key `k`
(src/app.py line 212). -/
def groupbySizeSum (rows : List SizeRow) (k : String) : Nat :=
  countSum (rows.filter (fun r => r.institutionSize == k))

/-- `groupby('Activity Type')['Towns with Activity'].sum()` at key `k`
(src/app.py lines 254 and 346). -/
def groupbyActivitySum (rows : List ActivityRow) (k : String) : Nat :=
  townsSum (rows.filter (fun r => r.activityType == k))

/-- Everything one script rerun derives from the two widget values:
the five constant headline metrics of lines 182-192 and the filtered
frames and totals of lines 143-179. -/
structure RenderOutput where
  headline_total_institutions : Nat
  headline_total_small : Nat
  headline_total_service : Nat
  headline_total_financial : Nat
  headline_total_towns : Nat
  filtered_size_data : List SizeRow
  filtered_activity_data : List ActivityRow
  filtered_total_institutions : Nat
  filtered_total_activities : Nat
deriving DecidableEq, Repr

/-- One full rerun of src/app.py as a function of the two sidebar
widget values `selected_region` (selectbox, line 115) and
`institution_sizes` (multiselect, line 123): region filter, then size
filter on the size frame only, then the totals, with the headline
metrics taken from the constant `metrics` dict of `load_trade_data`
(lines 95-103, rendered at lines 182-192). -/
def renderDashboard (selected_region : String)
    (institution_sizes : List String) : RenderOutput :=
  let fsd := sizeFilter (regionFilterSize regional_size_data selected_region)
    institution_sizes
  let fad := regionFilterActivity regional_activity_data selected_region
  { headline_total_institutions := total_institutions
    headline_total_small := total_small
    headline_total_service := 1086
    headline_total_financial := 682
    headline_total_towns := 1137
    filtered_size_data := fsd
    filtered_activity_data := fad
    filtered_total_institutions := totalInstitutionsOf fsd
    filtered_total_activities := totalActivitiesOf fad }

/-- Modelled from the spec: the percentage-of-whole metric of Derived
Metrics, "each category's count ÷ view total, defined as 0 when view
total is 0".  In src/app.py the per-slice percent of the pie chart is
computed by the external plotting library, not by the script itself. -/
def percentageOf (rows : List SizeRow) (k : String) : ℚ :=
  if countSum rows = 0 then 0
  else 100 * (groupbySizeSum rows k : ℚ) / (countSum rows : ℚ)

/-- Modelled from the spec: the time-series peak lookup of Derived
Metrics, "the (x, y) pair at the maximum y value"; it "returns a
sentinel no-peak when the view has zero rows".  The debt-series code
the spec describes is not part of src/app.py. -/
def peakLookup : List (Nat × Nat) → Option (Nat × Nat)
  | [] => none
  | p :: rest =>
    match peakLookup rest with
    | none => some p
    | some q => if q.2 < p.2 then some p else some q

/-- Modelled from the spec: the total-count reduction of Derived
Metrics, defined for the empty case as "sum=0". -/
def sumAgg (rows : List Nat) : Nat := rows.sum

/-- Modelled from the spec: the mean reduction of Derived Metrics,
"mean=undefined → reported as n/a" on empty input, embedded as the
`none` case of an optional rational. -/
def meanAgg (rows : List Nat) : Option ℚ :=
  if rows.length = 0 then none
  else some ((rows.sum : ℚ) / (rows.length : ℚ))

/-- Modelled from the spec: percentage of a part in a whole, defined as
0 when the whole is 0 ("percentage=0" for empty input). -/
def percentageAgg (part whole : Nat) : ℚ :=
  if whole = 0 then 0 else 100 * (part : ℚ) / (whole : ℚ)

/-! ## Helper lemmas -/

theorem regionFilterSize_subset (table : List SizeRow) (sel : String) :
    regionFilterSize table sel ⊆ table := by
  unfold regionFilterSize
  split
  · exact fun a ha => List.mem_of_mem_filter ha
  · exact fun a ha => ha

theorem regionFilterActivity_subset (table : List ActivityRow) (sel : String) :
    regionFilterActivity table sel ⊆ table := by
  unfold regionFilterActivity
  split
  · exact fun a ha => List.mem_of_mem_filter ha
  · exact fun a ha => ha

theorem sizeFilter_subset (table : List SizeRow) (sizes : List String) :
    sizeFilter table sizes ⊆ table := by
  unfold sizeFilter
  split
  · exact List.nil_subset table
  · exact fun a ha => List.mem_of_mem_filter ha

theorem perm_countSum {t t' : List SizeRow} (h : t.Perm t') :
    countSum t = countSum t' := by
  unfold countSum
  exact (h.map (fun r => r.count)).sum_eq

theorem perm_townsSum {u u' : List ActivityRow} (h : u.Perm u') :
    townsSum u = townsSum u' := by
  unfold townsSum
  exact (h.map (fun r => r.townsWithActivity)).sum_eq

theorem perm_regionFilterSize {t t' : List SizeRow} (h : t.Perm t')
    (sel : String) : (regionFilterSize t sel).Perm (regionFilterSize t' sel) := by
  unfold regionFilterSize
  split
  · exact h.filter _
  · exact h

theorem perm_regionFilterActivity {u u' : List ActivityRow} (h : u.Perm u')
    (sel : String) :
    (regionFilterActivity u sel).Perm (regionFilterActivity u' sel) := by
  unfold regionFilterActivity
  split
  · exact h.filter _
  · exact h

theorem perm_sizeFilter {t t' : List SizeRow} (h : t.Perm t')
    (sizes : List String) : (sizeFilter t sizes).Perm (sizeFilter t' sizes) := by
  unfold sizeFilter
  split
  · exact List.Perm.refl _
  · exact h.filter _

theorem perm_totalInstitutionsOf {t t' : List SizeRow} (h : t.Perm t') :
    totalInstitutionsOf t = totalInstitutionsOf t' := by
  unfold totalInstitutionsOf
  rw [h.length_eq, perm_countSum h]

theorem perm_totalActivitiesOf {u u' : List ActivityRow} (h : u.Perm u') :
    totalActivitiesOf u = totalActivitiesOf u' := by
  unfold totalActivitiesOf
  rw [h.length_eq, perm_townsSum h]

theorem perm_groupbySizeSum {t t' : List SizeRow} (h : t.Perm t')
    (k : String) : groupbySizeSum t k = groupbySizeSum t' k :=
  perm_countSum (h.filter _)

theorem perm_groupbyActivitySum {u u' : List ActivityRow} (h : u.Perm u')
    (k : String) : groupbyActivitySum u k = groupbyActivitySum u' k :=
  perm_townsSum (h.filter _)

theorem peakLookup_eq_none_iff (rows : List (Nat × Nat)) :
    peakLookup rows = none ↔ rows = [] := by
  cases rows with
  | nil => simp [peakLookup]
  | cons p rest =>
    simp only [peakLookup]
    cases hr : peakLookup rest with
    | none => simp
    | some q =>
      change (if q.2 < p.2 then some p else some q) = none ↔ p :: rest = []
      split <;> simp

theorem peakLookup_spec : ∀ (rows : List (Nat × Nat)) (p : Nat × Nat),
    peakLookup rows = some p → p ∈ rows ∧ ∀ q ∈ rows, q.2 ≤ p.2 := by
  intro rows
  induction rows with
  | nil => intro p h; simp [peakLookup] at h
  | cons r rest ih =>
    intro p h
    simp only [peakLookup] at h
    cases hrec : peakLookup rest with
    | none =>
      simp only [hrec] at h
      have hrest : rest = [] := (peakLookup_eq_none_iff rest).mp hrec
      injection h with h
      subst h; subst hrest
      refine ⟨List.mem_cons_self _ _, ?_⟩
      intro q hq
      rcases List.mem_cons.mp hq with hq | hq
      · exact hq ▸ Nat.le_refl _
      · exact absurd hq (List.not_mem_nil q)
    | some m =>
      simp only [hrec] at h
      obtain ⟨hm, hb⟩ := ih m hrec
      by_cases hlt : m.2 < r.2
      · rw [if_pos hlt] at h
        injection h with h
        subst h
        refine ⟨List.mem_cons_self _ _, ?_⟩
        intro q hq
        rcases List.mem_cons.mp hq with hq | hq
        · exact hq ▸ Nat.le_refl _
        · exact Nat.le_trans (hb q hq) (Nat.le_of_lt hlt)
      · rw [if_neg hlt] at h
        injection h with h
        subst h
        refine ⟨List.mem_cons_of_mem _ hm, ?_⟩
        intro q hq
        rcases List.mem_cons.mp hq with hq | hq
        · exact hq ▸ Nat.le_of_not_lt hlt
        · exact hb q hq

/-! ## Claim theorems -/

/-- Claim C1: when the region selection is the "All Regions" sentinel,
the filter performs no region predicate at all, so the filtered size
view equals the full size table restricted only by the
institution-size filter, and the filtered activity view equals the
full activity table; moreover no row of either table carries the
sentinel as a `Region` data value, so no string match against the
sentinel ever happens. -/
theorem all_regions_sentinel_law (institution_sizes : List String) :
    (renderDashboard "All Regions" institution_sizes).filtered_size_data
      = sizeFilter regional_size_data institution_sizes ∧
    (renderDashboard "All Regions" institution_sizes).filtered_activity_data
      = regional_activity_data ∧
    (∀ r ∈ regional_size_data, r.region ≠ "All Regions") ∧
    (∀ r ∈ regional_activity_data, r.region ≠ "All Regions") := by
  refine ⟨rfl, rfl, ?_, ?_⟩ <;> decide

/-- Claim C2: for every region selection, an empty institution-size
multiselect yields a filtered size view with zero rows and a derived
total of 0 - a well-defined empty state, not "show everything". -/
theorem empty_size_selection_law (selected_region : String) :
    (renderDashboard selected_region []).filtered_size_data = [] ∧
    (renderDashboard selected_region []).filtered_total_institutions = 0 :=
  ⟨rfl, rfl⟩

/-- Claim C3 (counterexample): the per-category total of the Large
category is not 884 - both the script's `total_large` constant and the
group-by sum over the size table evaluate to 684. -/
theorem large_total_counterexample :
    total_large ≠ 884 ∧
    groupbySizeSum regional_size_data "Large Institutions" ≠ 884 := by
  constructor <;> decide

/-- Claim C3 (amended): the per-category totals are Small = 38940,
Medium = 2612 and Large = 684 (both as the script's constants and as
group-by sums over the size table); with region "All Regions" and only
the Small category selected, the filtered total is 38940 and the Small
category's share of the view is 100 percent. -/
theorem size_totals_amended :
    total_small = 38940 ∧ total_medium = 2612 ∧ total_large = 684 ∧
    groupbySizeSum regional_size_data "Small Institutions" = 38940 ∧
    groupbySizeSum regional_size_data "Medium Institutions" = 2612 ∧
    groupbySizeSum regional_size_data "Large Institutions" = 684 ∧
    (renderDashboard "All Regions"
      ["Small Institutions"]).filtered_total_institutions = 38940 ∧
    percentageOf
      (renderDashboard "All Regions" ["Small Institutions"]).filtered_size_data
      "Small Institutions" = 100 := by
  have h1 : countSum (renderDashboard "All Regions"
      ["Small Institutions"]).filtered_size_data = 38940 := by decide
  have h2 : groupbySizeSum (renderDashboard "All Regions"
      ["Small Institutions"]).filtered_size_data "Small Institutions"
      = 38940 := by decide
  refine ⟨rfl, rfl, rfl, by decide, by decide, by decide, by decide, ?_⟩
  unfold percentageOf
  rw [h1, h2]
  norm_num

/-- Claim C4: for every region selection and every institution-size
selection, every row of the filtered size view is a row of the size
table and every row of the filtered activity view is a row of the
activity table - filtering never invents rows. -/
theorem filter_never_invents_rows (selected_region : String)
    (institution_sizes : List String) :
    (renderDashboard selected_region institution_sizes).filtered_size_data
      ⊆ regional_size_data ∧
    (renderDashboard selected_region institution_sizes).filtered_activity_data
      ⊆ regional_activity_data :=
  ⟨List.Subset.trans
      (sizeFilter_subset (regionFilterSize regional_size_data selected_region)
        institution_sizes)
      (regionFilterSize_subset regional_size_data selected_region),
    regionFilterActivity_subset regional_activity_data selected_region⟩

/-- Claim C5: with region "Bekaa" selected, the filtered activity view
has exactly 5 rows, one per activity type, and the sum of its Towns
with Activity values is 165 + 120 + 48 + 32 + 22 = 387. -/
theorem bekaa_activity_scenario (institution_sizes : List String) :
    (renderDashboard "Bekaa" institution_sizes).filtered_activity_data.length
      = 5 ∧
    (renderDashboard "Bekaa" institution_sizes).filtered_activity_data.map
      (fun r => r.activityType)
      = ["Self Employment", "Commerce", "Public Sector",
         "Service Institutions", "Banking"] ∧
    (renderDashboard "Bekaa" institution_sizes).filtered_total_activities
      = 165 + 120 + 48 + 32 + 22 ∧
    (renderDashboard "Bekaa" institution_sizes).filtered_total_activities
      = 387 :=
  ⟨rfl, rfl, rfl, rfl⟩

/-- Claim C6: the institution-size selection applies only to the size
table; for every region selection the filtered activity view and its
town-activity total are identical whatever institution-size set is
chosen, including the empty set. -/
theorem size_filter_frame_on_activity (selected_region : String)
    (sizes1 sizes2 : List String) :
    (renderDashboard selected_region sizes1).filtered_activity_data
      = (renderDashboard selected_region sizes2).filtered_activity_data ∧
    (renderDashboard selected_region sizes1).filtered_total_activities
      = (renderDashboard selected_region sizes2).filtered_total_activities :=
  ⟨rfl, rfl⟩

/-- Claim C7: for every permutation of the source tables' rows and
every selection, filtering then aggregating yields the same totals:
the same filtered Count sum, the same Towns with Activity sum, and the
same group-by-sum results at every key. -/
theorem order_independence (t t' : List SizeRow) (u u' : List ActivityRow)
    (ht : t.Perm t') (hu : u.Perm u') (selected_region : String)
    (institution_sizes : List String) (k : String) :
    totalInstitutionsOf
        (sizeFilter (regionFilterSize t selected_region) institution_sizes)
      = totalInstitutionsOf
        (sizeFilter (regionFilterSize t' selected_region) institution_sizes) ∧
    totalActivitiesOf (regionFilterActivity u selected_region)
      = totalActivitiesOf (regionFilterActivity u' selected_region) ∧
    groupbySizeSum
        (sizeFilter (regionFilterSize t selected_region) institution_sizes) k
      = groupbySizeSum
        (sizeFilter (regionFilterSize t' selected_region) institution_sizes) k ∧
    groupbyActivitySum (regionFilterActivity u selected_region) k
      = groupbyActivitySum (regionFilterActivity u' selected_region) k :=
  ⟨perm_totalInstitutionsOf
      (perm_sizeFilter (perm_regionFilterSize ht selected_region)
        institution_sizes),
    perm_totalActivitiesOf (perm_regionFilterActivity hu selected_region),
    perm_groupbySizeSum
      (perm_sizeFilter (perm_regionFilterSize ht selected_region)
        institution_sizes) k,
    perm_groupbyActivitySum (perm_regionFilterActivity hu selected_region) k⟩

/-- Witness for C7 at a concrete pair of row-swapped tables. -/
theorem order_independence_witness :
    totalInstitutionsOf (sizeFilter (regionFilterSize
        [⟨"Bekaa", "Small Institutions", 8500⟩,
         ⟨"Bekaa", "Medium Institutions", 580⟩] "Bekaa")
        ["Small Institutions", "Medium Institutions"])
      = totalInstitutionsOf (sizeFilter (regionFilterSize
        [⟨"Bekaa", "Medium Institutions", 580⟩,
         ⟨"Bekaa", "Small Institutions", 8500⟩] "Bekaa")
        ["Small Institutions", "Medium Institutions"]) ∧
    totalActivitiesOf (regionFilterActivity
        [⟨"Bekaa", "Self Employment", 165⟩, ⟨"Bekaa", "Commerce", 120⟩]
        "Bekaa")
      = totalActivitiesOf (regionFilterActivity
        [⟨"Bekaa", "Commerce", 120⟩, ⟨"Bekaa", "Self Employment", 165⟩]
        "Bekaa") ∧
    groupbySizeSum (sizeFilter (regionFilterSize
        [⟨"Bekaa", "Small Institutions", 8500⟩,
         ⟨"Bekaa", "Medium Institutions", 580⟩] "Bekaa")
        ["Small Institutions", "Medium Institutions"]) "Small Institutions"
      = groupbySizeSum (sizeFilter (regionFilterSize
        [⟨"Bekaa", "Medium Institutions", 580⟩,
         ⟨"Bekaa", "Small Institutions", 8500⟩] "Bekaa")
        ["Small Institutions", "Medium Institutions"]) "Small Institutions" ∧
    groupbyActivitySum (regionFilterActivity
        [⟨"Bekaa", "Self Employment", 165⟩, ⟨"Bekaa", "Commerce", 120⟩]
        "Bekaa") "Small Institutions"
      = groupbyActivitySum (regionFilterActivity
        [⟨"Bekaa", "Commerce", 120⟩, ⟨"Bekaa", "Self Employment", 165⟩]
        "Bekaa") "Small Institutions" :=
  order_independence _ _ _ _ (by decide) (by decide) "Bekaa"
    ["Small Institutions", "Medium Institutions"] "Small Institutions"

/-- Claim C8: the filter-and-aggregate pipeline is a pure function of
the selection over the immutable tables - two runs with equal region
and size selections produce identical outputs (filtered frames,
totals and headline metrics alike). -/
theorem pipeline_deterministic (sel1 sel2 : String)
    (sizes1 sizes2 : List String) (hsel : sel1 = sel2)
    (hsizes : sizes1 = sizes2) :
    renderDashboard sel1 sizes1 = renderDashboard sel2 sizes2 := by
  subst hsel
  subst hsizes
  rfl

/-- Witness for C8 at a concrete selection. -/
theorem pipeline_deterministic_witness :
    renderDashboard "Bekaa" ["Small Institutions"]
      = renderDashboard "Bekaa" ["Small Institutions"] :=
  pipeline_deterministic "Bekaa" "Bekaa" ["Small Institutions"]
    ["Small Institutions"] rfl rfl

/-- Claim C9: the peak lookup of Derived Metrics is total - it returns
the sentinel `none` on an empty view instead of raising, and whenever
it returns a pair that pair belongs to the view and carries the
maximal y value; the empty-input aggregations are all defined:
sum = 0, mean = n/a (`none`), percentage = 0. -/
theorem peak_and_empty_aggregations (part : Nat) :
    peakLookup [] = none ∧
    sumAgg [] = 0 ∧
    meanAgg [] = none ∧
    percentageAgg part 0 = 0 ∧
    (∀ rows p, peakLookup rows = some p → p ∈ rows ∧ ∀ q ∈ rows, q.2 ≤ p.2) :=
  ⟨rfl, rfl, rfl, rfl, peakLookup_spec⟩

/-- Witness for C9 at a concrete two-point series. -/
theorem peak_and_empty_aggregations_witness :
    (1, 5) ∈ [(2, 3), (1, 5)] ∧ ∀ q ∈ [(2, 3), (1, 5)], q.2 ≤ (1, 5).2 :=
  (peak_and_empty_aggregations 0).2.2.2.2 [(2, 3), (1, 5)] (1, 5) rfl

/-- Claim C10: the five headline metrics are constants computed once
from the full dataset (the grand total equals the Count sum over the
whole size table) and are unchanged by every region and
institution-size selection, including ones that empty the filtered
views. -/
theorem headline_metrics_constant (selected_region : String)
    (institution_sizes : List String) :
    (renderDashboard selected_region
        institution_sizes).headline_total_institutions = 42236 ∧
    (renderDashboard selected_region
        institution_sizes).headline_total_small = 38940 ∧
    (renderDashboard selected_region
        institution_sizes).headline_total_service = 1086 ∧
    (renderDashboard selected_region
        institution_sizes).headline_total_financial = 682 ∧
    (renderDashboard selected_region
        institution_sizes).headline_total_towns = 1137 ∧
    total_institutions = countSum regional_size_data :=
  ⟨rfl, rfl, rfl, rfl, rfl, rfl⟩
